import Mathlib

/-!
Shallow embedding of the Sakhi frontend (files under `src/js` and
`src/frontend/js`) and proofs about its navigation controller, API client,
voice-screening flow and alternatives/shopping-list flow.

Conventions: JavaScript numbers are modelled as `ℚ`, optional JSON fields as
`Option`, thrown errors as `Except.error`, and DOM/side effects (toasts,
loading overlay, issued network requests) as explicit fields of returned
records.  Asynchronous interleaving, where a claim needs it, is modelled by
an explicit event-step function.
-/

namespace Sakhi

/-! ### JavaScript helpers

`a || b` in JavaScript yields `b` when `a` is falsy.  For an optional string
field the falsy values are `undefined`/`null` (modelled `none`) and `""`;
for an optional numeric field they are `undefined`/`null` and `0`. -/

def jsOrString : Option String → String → String
  | none, d => d
  | some s, d => if s = "" then d else s

def jsOrNum : Option ℚ → ℚ → ℚ
  | none, d => d
  | some x, d => if x = 0 then d else x

/-! ### API client (`src/frontend/js/api.js`, `APIClient.request`)

`request` checks `response.ok`; on failure it tries to parse the body as
JSON (`response.json().catch(() => ({ detail: 'Unknown error' }))`) and
throws `new Error(error.detail || 'HTTP ' + response.status)`. -/

/-- Result of `response.json()` on a non-success response: either the body
failed to parse as JSON (the `.catch` branch), or it parsed to an object
whose `detail` field is `detail` (absent = `none`). -/
inductive BodyParse where
  | fail
  | parsed (detail : Option String)
deriving DecidableEq, Repr

structure HttpResponse where
  ok : Bool
  status : Nat
  body : BodyParse
  /-- the JSON payload returned on success, kept abstract -/
  payload : String
deriving DecidableEq, Repr

/-- The `detail` field after the `.catch(() => ({ detail: 'Unknown error' }))`. -/
def requestErrorDetail : BodyParse → Option String
  | .fail => some "Unknown error"
  | .parsed d => d

/-- `APIClient.request`, given the HTTP response: success returns the parsed
payload, failure throws `Error(error.detail || 'HTTP ' + response.status)`. -/
def request (resp : HttpResponse) : Except String String :=
  if resp.ok then
    .ok resp.payload
  else
    .error (jsOrString (requestErrorDetail resp.body) ("HTTP " ++ toString resp.status))

/-! ### Voice component (`src/js/components/voice.js`)

`displayResults` (lines 221–239) computes
`score = response.total_score || 0` and picks
`score < 10 ? 'score-safe' : score < 20 ? 'score-warning' : 'score-danger'`
for the badge and
`score < 10 ? 'alert-success' : score < 20 ? 'alert-warning' : 'alert-danger'`
for the alert. -/

def scoreBadgeBanding (score : ℚ) : String :=
  if score < 10 then "score-safe" else if score < 20 then "score-warning" else "score-danger"

def alertBanding (score : ℚ) : String :=
  if score < 10 then "alert-success" else if score < 20 then "alert-warning" else "alert-danger"

/-- A question as supplied by the server (`{ number, text }`). -/
structure Question where
  number : Nat
  text : String
deriving DecidableEq, Repr

/-- Response of the screening-start endpoint. -/
structure StartResponse where
  session_id : String
  current_question : Option Question
  total_questions : Nat
deriving DecidableEq, Repr

/-- Response of the respond-to-screening endpoint. -/
structure RespondResponse where
  status : String
  next_question : Option Question
  current_question_number : Nat
  total_questions : Nat
  total_score : Option ℚ
  risk_level : Option String
  recommendation : Option String
deriving DecidableEq, Repr

/-- Result of the speech-to-text endpoint. -/
structure SttResult where
  text : String
  confidence : ℚ
deriving DecidableEq, Repr

/-- Component fields of `VoiceComponent` together with the DOM pieces its
methods mutate and the side effects they emit. -/
structure VoiceState where
  sessionId : Option String
  currentScreening : Option StartResponse
  /-- innerHTML of `#currentQuestion` -/
  questionPanel : String
  /-- textContent of `#transcriptionText` -/
  transcriptionText : String
  /-- `#transcriptionResult` visible -/
  transcriptionShown : Bool
  /-- `#startScreeningBtn` visible -/
  startBtnShown : Bool
  /-- `#screeningInterface` visible -/
  interfaceShown : Bool
  /-- `#screeningResults` visible -/
  resultsShown : Bool
  /-- the `current` argument last passed to `updateProgress` -/
  progressCurrent : Nat
  /-- the `total` argument last passed to `updateProgress` -/
  progressTotal : Nat
  /-- textContent of `#progressText` -/
  progressText : String
  /-- textContent of `#screeningScore` -/
  displayedScore : ℚ
  /-- className of `#screeningScore` -/
  scoreClassAttr : String
  /-- alert class used inside `#screeningRecommendations` -/
  resultsAlertClass : String
  /-- heading inside the results alert -/
  riskHeading : String
  /-- recommendation paragraph inside the results alert -/
  recommendationText : String
  /-- loading overlay visible -/
  loadingShown : Bool
  /-- emitted toasts, as (message, type), oldest first -/
  toasts : List (String × String)
deriving DecidableEq, Repr

/-- `VoiceComponent.displayQuestion` (lines 124–130): no-op on a missing
question, otherwise rewrites the question panel. -/
def displayQuestion (st : VoiceState) (q : Option Question) : VoiceState :=
  match q with
  | none => st
  | some q =>
      { st with questionPanel :=
          "<strong>Question " ++ toString q.number ++ ":</strong><br>" ++ q.text }

/-- `VoiceComponent.updateProgress` (lines 132–137). -/
def updateProgress (st : VoiceState) (current total : Nat) : VoiceState :=
  { st with
      progressCurrent := current
      progressTotal := total
      progressText := "Question " ++ toString current ++ " of " ++ toString total }

/-- `VoiceComponent.displayResults` (lines 221–239). -/
def displayResults (st : VoiceState) (resp : RespondResponse) : VoiceState :=
  let score := jsOrNum resp.total_score 0
  { st with
      interfaceShown := false
      resultsShown := true
      displayedScore := score
      scoreClassAttr := "score-badge " ++ scoreBadgeBanding score
      resultsAlertClass := alertBanding score
      riskHeading := jsOrString resp.risk_level "Assessment Complete"
      recommendationText :=
        jsOrString resp.recommendation "Thank you for completing the screening."
      toasts := st.toasts ++ [("Screening completed", "success")] }

/-- `VoiceComponent.startScreening` (lines 97–122), parameterised by the
outcome of `api.startScreening`. -/
def startScreening (st : VoiceState) (result : Except String StartResponse) : VoiceState :=
  let st := { st with loadingShown := true }
  let st :=
    match result with
    | .ok r =>
        let st := { st with sessionId := some r.session_id, currentScreening := some r }
        let st := { st with startBtnShown := false, interfaceShown := true }
        let st := displayQuestion st r.current_question
        let st := updateProgress st 1 r.total_questions
        { st with toasts := st.toasts ++ [("Screening started", "success")] }
    | .error e =>
        { st with toasts := st.toasts ++ [("Failed to start screening: " ++ e, "error")] }
  { st with loadingShown := false }

/-- `VoiceComponent.processAudio` (lines 188–219), parameterised by the
outcomes of `api.speechToText` and `api.respondToScreening` (the latter is
only consulted when transcription succeeded). -/
def processAudio (st : VoiceState) (sttResult : Except String SttResult)
    (respondResult : Except String RespondResponse) : VoiceState :=
  let st := { st with loadingShown := true }
  let st :=
    match sttResult with
    | .error e =>
        { st with toasts := st.toasts ++ [("Failed to process audio: " ++ e, "error")] }
    | .ok stt =>
        let st := { st with transcriptionText := stt.text, transcriptionShown := true }
        match respondResult with
        | .error e =>
            { st with toasts := st.toasts ++ [("Failed to process audio: " ++ e, "error")] }
        | .ok resp =>
            if resp.status = "complete" then
              displayResults st resp
            else if resp.status = "next_question" then
              updateProgress (displayQuestion st resp.next_question)
                resp.current_question_number resp.total_questions
            else st
  { st with loadingShown := false }

/-- The as-rendered voice page: no session, start button visible, interface
and results hidden. -/
def initVoiceState : VoiceState :=
  { sessionId := none
    currentScreening := none
    questionPanel := "Question will appear here..."
    transcriptionText := ""
    transcriptionShown := false
    startBtnShown := true
    interfaceShown := false
    resultsShown := false
    progressCurrent := 0
    progressTotal := 0
    progressText := "Question 0 of 0"
    displayedScore := 0
    scoreClassAttr := ""
    resultsAlertClass := ""
    riskHeading := ""
    recommendationText := ""
    loadingShown := false
    toasts := [] }

/-! ### Recording / screening event machine (`voice.js`, lines 97–186)

`toggleRecording`, `startRecording`, `stopRecording` and the asynchronous
suspension points inside them.  `startRecording` suspends at
`await navigator.mediaDevices.getUserMedia(...)`; only when that resolves is
a `MediaRecorder` created, started and stored in `this.mediaRecorder`, with
`this.isRecording = true`.  `stopRecording` stops (only) the recorder
currently stored in `this.mediaRecorder`.  `startScreening` suspends at the
API call; on resolution it stores the returned session id. -/

structure VoiceRecState where
  /-- ids of `MediaRecorder`s that were started and not yet stopped -/
  activeRecorders : List Nat
  /-- `this.mediaRecorder` -/
  mediaRecorder : Option Nat
  /-- `this.isRecording` -/
  isRecording : Bool
  /-- `startRecording` calls suspended at `getUserMedia` -/
  pendingStarts : Nat
  /-- id supply for freshly created recorders -/
  nextId : Nat
  /-- `this.sessionId` -/
  sessionId : Option String
  /-- `startScreening` calls suspended at `api.startScreening` -/
  pendingScreenings : Nat
deriving DecidableEq, Repr

inductive VoiceEvent where
  /-- user clicks the record button: `toggleRecording` runs to its next
  suspension point -/
  | clickToggle
  /-- a suspended `getUserMedia` resolves: the rest of `startRecording` runs -/
  | grantMedia
  /-- a suspended `getUserMedia` rejects: the `catch` branch runs -/
  | denyMedia
  /-- user clicks start: `startScreening` runs up to the API await -/
  | clickStart
  /-- a suspended `api.startScreening` resolves with session id `sid` -/
  | startOk (sid : String)
  /-- a suspended `api.startScreening` rejects -/
  | startFail
deriving DecidableEq, Repr

def recStep (s : VoiceRecState) : VoiceEvent → VoiceRecState
  | .clickToggle =>
      if s.isRecording then
        -- stopRecording: guarded by `if (this.mediaRecorder && this.isRecording)`
        match s.mediaRecorder with
        | some r =>
            { s with activeRecorders := s.activeRecorders.erase r, isRecording := false }
        | none => s
      else
        -- startRecording: suspends at getUserMedia
        { s with pendingStarts := s.pendingStarts + 1 }
  | .grantMedia =>
      if s.pendingStarts = 0 then s
      else
        { s with
            pendingStarts := s.pendingStarts - 1
            activeRecorders := s.nextId :: s.activeRecorders
            mediaRecorder := some s.nextId
            isRecording := true
            nextId := s.nextId + 1 }
  | .denyMedia =>
      if s.pendingStarts = 0 then s else { s with pendingStarts := s.pendingStarts - 1 }
  | .clickStart => { s with pendingScreenings := s.pendingScreenings + 1 }
  | .startOk sid =>
      if s.pendingScreenings = 0 then s
      else { s with pendingScreenings := s.pendingScreenings - 1, sessionId := some sid }
  | .startFail =>
      if s.pendingScreenings = 0 then s
      else { s with pendingScreenings := s.pendingScreenings - 1 }

def initRecState : VoiceRecState :=
  { activeRecorders := []
    mediaRecorder := none
    isRecording := false
    pendingStarts := 0
    nextId := 0
    sessionId := none
    pendingScreenings := 0 }

def recRun (s : VoiceRecState) (tr : List VoiceEvent) : VoiceRecState :=
  tr.foldl recStep s

/-- An event is serialized in state `s` when it is not a record-button click
fired while a `getUserMedia` acquisition is still pending. -/
def eventOk (s : VoiceRecState) : VoiceEvent → Bool
  | .clickToggle => s.pendingStarts == 0
  | _ => true

/-- A trace is serialized when every record-button click happens while no
`getUserMedia` acquisition is still pending. -/
def serializedFrom (s : VoiceRecState) : List VoiceEvent → Bool
  | [] => true
  | e :: es => eventOk s e && serializedFrom (recStep s e) es

/-! ### Navigation controller (`src/js/app.js`, `App.loadPage`, lines 54–82) -/

inductive Component where
  | home | ocr | alternatives | voice | notifications
deriving DecidableEq, Repr

/-- The own properties of the `this.components` object literal of the `App`
constructor (app.js:5-11). -/
def componentsOwn : String → Option Component := fun page =>
  if page = "home" then some .home
  else if page = "ocr" then some .ocr
  else if page = "alternatives" then some .alternatives
  else if page = "voice" then some .voice
  else if page = "notifications" then some .notifications
  else none

/-- Property names that every plain object literal inherits from
`Object.prototype`: reading `this.components[page]` for one of these yields
a truthy value that is not a page component. -/
def objectPrototypeProps : List String :=
  ["constructor", "hasOwnProperty", "isPrototypeOf", "propertyIsEnumerable",
   "toLocaleString", "toString", "valueOf", "__defineGetter__",
   "__defineSetter__", "__lookupGetter__", "__lookupSetter__", "__proto__"]

/-- Outcome of the JavaScript property read `this.components[page]`: a
registered page component (an own property), a truthy value inherited from
`Object.prototype` that is not a component, or `undefined`. -/
inductive PropLookup where
  | comp (c : Component)
  | inherited
  | missing
deriving DecidableEq, Repr

/-- `this.components[page]` with prototype-chain lookup: own properties
first, then the properties inherited from `Object.prototype`, else
`undefined`. -/
def componentsLookup (page : String) : PropLookup :=
  match componentsOwn page with
  | some c => .comp c
  | none => if page ∈ objectPrototypeProps then .inherited else .missing

/-- JavaScript truthiness of the looked-up property value: only `undefined`
is falsy; an inherited function or object is truthy. -/
def PropLookup.truthy : PropLookup → Bool
  | .missing => false
  | _ => true

structure NavLink where
  href : String
  active : Bool
deriving DecidableEq, Repr

structure LoadPageResult where
  currentPage : String
  navLinks : List NavLink
  /-- the component whose `render()` output replaced `#app-content` -/
  rendered : Component
  /-- whether the component's `init` hook ran (all registered components have one) -/
  initInvoked : Bool
deriving DecidableEq, Repr

/-- The validation prologue of `App.loadPage` (app.js:56-58):
`if (!this.components[page]) { page = 'home'; }` — the fallback fires only
when the property read is falsy, so a truthy inherited property defeats
it. -/
def validatePage (page : String) : String :=
  if (componentsLookup page).truthy then page else "home"

/-- `App.loadPage` (app.js:54-82): validate the key, mark the matching nav
link active, then call `component.render()` and the `init` hook.  When the
looked-up value is a truthy inherited non-component, `component.render` is
`undefined` and the call throws a `TypeError`, modelled as `.error`. -/
def loadPage (navLinks : List NavLink) (page : String) :
    Except String LoadPageResult :=
  let page := validatePage page
  match componentsLookup page with
  | .comp c =>
      .ok { currentPage := page
            navLinks := navLinks.map fun l => { l with active := l.href == "#" ++ page }
            rendered := c
            initInvoked := true }
  | _ => .error "TypeError: component.render is not a function"

/-! ### Alternatives component (`src/js/components/notifications.js`)

`searchAlternatives` (lines 220–256) and `exportShoppingList`
(lines 370–384). -/

structure FindAlternativesRequest where
  product_category : String
  current_score : ℚ
  price_preference : Option String
  region : Option String
  limit : Nat
deriving DecidableEq, Repr

/-- Effects of one `searchAlternatives` invocation: the toasts shown and the
`api.findAlternatives` requests issued. -/
structure SearchEffects where
  toasts : List (String × String)
  requests : List FindAlternativesRequest
deriving DecidableEq, Repr

/-- `AlternativesComponent.searchAlternatives`.  `currentScore` is the result
of `parseFloat` on the score input (`none` = `NaN`); `apiResult` is the
outcome of `api.findAlternatives`, consulted only when validation passes
(`n` stands for the returned `alternatives.length`). -/
def searchAlternatives (category : String) (currentScore : Option ℚ)
    (pricePreference region : String) (apiResult : Except String Nat) : SearchEffects :=
  if category = "" then
    { toasts := [("Please select a category", "warning")], requests := [] }
  else
    match currentScore with
    | none => { toasts := [("Please enter a valid score (0-100)", "warning")], requests := [] }
    | some s =>
        if s < 0 ∨ 100 < s then
          { toasts := [("Please enter a valid score (0-100)", "warning")], requests := [] }
        else
          let req : FindAlternativesRequest :=
            { product_category := category
              current_score := s
              price_preference := if pricePreference = "" then none else some pricePreference
              region := if region = "" then none else some region
              limit := 10 }
          match apiResult with
          | .ok n =>
              { toasts := [("Found " ++ toString n ++ " alternatives", "success")]
                requests := [req] }
          | .error e =>
              { toasts := [("Search failed: " ++ e, "error")], requests := [req] }

structure ShoppingItem where
  name : String
  hormonal_health_score : ℚ
deriving DecidableEq, Repr

/-- JavaScript `Number.prototype.toFixed(1)`: round to one decimal place and
print with exactly one digit after the point. -/
def toFixed1 (q : ℚ) : String :=
  let n : Int := ⌊q * 10 + 1 / 2⌋
  let s := toString (n.natAbs / 10) ++ "." ++ toString (n.natAbs % 10)
  if n < 0 then "-" ++ s else s

/-- Effects of `exportShoppingList`: the generated text artifact, the
download file name, the network requests issued (none) and the toast. -/
structure ExportEffects where
  text : String
  downloadFileName : String
  networkRequests : List String
  toasts : List (String × String)
deriving DecidableEq, Repr

/-- `AlternativesComponent.exportShoppingList`: serialize the in-memory
list, one line per item, and trigger a local download. -/
def exportShoppingList (shoppingList : List ShoppingItem) : ExportEffects :=
  { text := String.intercalate "\n" (shoppingList.map fun item =>
      item.name ++ " (Score: " ++ toFixed1 item.hormonal_health_score ++ ")")
    downloadFileName := "sakhi-shopping-list.txt"
    networkRequests := []
    toasts := [("Shopping list exported", "success")] }

/-! ### Concrete fixtures used in the closed evaluations below -/

/-- A mid-screening component state: session `s1` active, question 2 shown. -/
def midScreeningState : VoiceState :=
  { initVoiceState with sessionId := some "s1", questionPanel := "Q2" }

/-- A completion response that carries no `total_score`. -/
def emptyCompleteResponse : RespondResponse :=
  { status := "complete", next_question := none, current_question_number := 0,
    total_questions := 0, total_score := none, risk_level := none,
    recommendation := none }

/-- A `next_question` response: server says question 4 of 5. -/
def nextQuestionResponse : RespondResponse :=
  { status := "next_question", next_question := some { number := 4, text := "q4" },
    current_question_number := 4, total_questions := 5, total_score := none,
    risk_level := none, recommendation := none }

/-- A screening-start response whose first question carries number 3. -/
def startResponseAtQ3 : StartResponse :=
  { session_id := "s1", current_question := some { number := 3, text := "q3" },
    total_questions := 5 }

/-- A screening-start response with no first question attached. -/
def plainStartResponse : StartResponse :=
  { session_id := "s1", current_question := none, total_questions := 5 }

/-- A transcription result. -/
def yesStt : SttResult := { text := "yes", confidence := 0.9 }

/-! ## Claims -/

/-- C1: For every completed-screening score `s` displayed by
`VoiceComponent.displayResults`, the risk banding is the lowest-risk class
when `s < 10`, the medium class when `10 ≤ s < 20` and the highest class
when `s ≥ 20`, with exact integer boundaries, and the same three-way
classification drives both the score badge class and the alert styling
class. -/
theorem displayResults_banding (s : ℚ) :
    (s < 10 → scoreBadgeBanding s = "score-safe" ∧ alertBanding s = "alert-success") ∧
    (10 ≤ s ∧ s < 20 →
      scoreBadgeBanding s = "score-warning" ∧ alertBanding s = "alert-warning") ∧
    (20 ≤ s → scoreBadgeBanding s = "score-danger" ∧ alertBanding s = "alert-danger") ∧
    ∀ (st : VoiceState) (resp : RespondResponse),
      (displayResults st resp).scoreClassAttr =
        "score-badge " ++ scoreBadgeBanding (jsOrNum resp.total_score 0) ∧
      (displayResults st resp).resultsAlertClass = alertBanding (jsOrNum resp.total_score 0) := by
  refine ⟨fun h => ?_, fun h => ?_, fun h => ?_, fun st resp => ⟨rfl, rfl⟩⟩
  · simp [scoreBadgeBanding, alertBanding, h]
  · have h1 : ¬ s < 10 := not_lt.2 h.1
    simp [scoreBadgeBanding, alertBanding, h1, h.2]
  · have h1 : ¬ s < 10 := not_lt.2 (le_trans (by norm_num) h)
    have h2 : ¬ s < 20 := not_lt.2 h
    simp [scoreBadgeBanding, alertBanding, h1, h2]

/-- C1 witness: the exact boundaries — a score of 10 is medium, a score of
20 is high, for both the badge and the alert class. -/
theorem displayResults_banding_witness :
    scoreBadgeBanding 10 = "score-warning" ∧ alertBanding 10 = "alert-warning" ∧
    scoreBadgeBanding 20 = "score-danger" ∧ alertBanding 20 = "alert-danger" := by
  have h10 := (displayResults_banding 10).2.1 (by norm_num)
  have h20 := (displayResults_banding 20).2.2.1 (by norm_num)
  exact ⟨h10.1, h10.2, h20.1, h20.2⟩

/-- C10: if a completion response's `total_score` is absent/null or the
(falsy) score 0, `displayResults` displays the score 0 and applies the
lowest-risk presentation, so a missing server score is indistinguishable
from a genuine score of 0. -/
theorem displayResults_falsy_score (st : VoiceState) (resp : RespondResponse)
    (h : resp.total_score = none ∨ resp.total_score = some 0) :
    (displayResults st resp).displayedScore = 0 ∧
    (displayResults st resp).scoreClassAttr = "score-badge score-safe" ∧
    (displayResults st resp).resultsAlertClass = "alert-success" := by
  have hscore : jsOrNum resp.total_score 0 = 0 := by
    rcases h with h | h <;> simp [jsOrNum, h]
  refine ⟨?_, ?_, ?_⟩ <;>
    simp [displayResults, hscore, scoreBadgeBanding, alertBanding]

/-- C10 witness: a completion response with no `total_score` field shows
score 0, the safe badge and the success alert. -/
theorem displayResults_falsy_score_witness :
    (displayResults initVoiceState
      { status := "complete", next_question := none, current_question_number := 0,
        total_questions := 0, total_score := none, risk_level := none,
        recommendation := none }).displayedScore = 0 ∧
    (displayResults initVoiceState
      { status := "complete", next_question := none, current_question_number := 0,
        total_questions := 0, total_score := none, risk_level := none,
        recommendation := none }).scoreClassAttr = "score-badge score-safe" ∧
    (displayResults initVoiceState
      { status := "complete", next_question := none, current_question_number := 0,
        total_questions := 0, total_score := none, risk_level := none,
        recommendation := none }).resultsAlertClass = "alert-success" :=
  displayResults_falsy_score initVoiceState _ (Or.inl rfl)

/-- C4 counterexample: when the failure body is not parseable JSON, the
thrown message is the fixed string `"Unknown error"` — it is not
server-supplied, it does not contain the HTTP status code (the same message
arises for statuses 500 and 404), and it differs from the generic
`"HTTP 500"`. -/
theorem request_counterexample :
    request { ok := false, status := 500, body := .fail, payload := "" } =
      .error "Unknown error" ∧
    request { ok := false, status := 404, body := .fail, payload := "" } =
      .error "Unknown error" ∧
    "Unknown error" ≠ "HTTP 500" := by
  exact ⟨rfl, rfl, by decide⟩

/-- C4 (amended): every non-success response fails (never a success value);
the message is the server-supplied `detail` when the body parses to JSON
with a non-empty `detail`, the generic `"HTTP <status>"` when the body
parses without a usable `detail`, and the fixed `"Unknown error"` when the
body is not parseable JSON. -/
theorem request_error_contract (resp : HttpResponse) (h : resp.ok = false) :
    (∀ d, resp.body = .parsed (some d) → d ≠ "" → request resp = .error d) ∧
    (resp.body = .parsed none ∨ resp.body = .parsed (some "") →
      request resp = .error ("HTTP " ++ toString resp.status)) ∧
    (resp.body = .fail → request resp = .error "Unknown error") ∧
    ∃ m, request resp = .error m := by
  have hreq : request resp =
      .error (jsOrString (requestErrorDetail resp.body) ("HTTP " ++ toString resp.status)) := by
    simp [request, h]
  refine ⟨?_, ?_, ?_, ⟨_, hreq⟩⟩
  · intro d hb hd
    rw [hreq, hb]
    simp [requestErrorDetail, jsOrString, hd]
  · intro hb
    rcases hb with hb | hb <;> rw [hreq, hb] <;> simp [requestErrorDetail, jsOrString]
  · intro hb
    rw [hreq, hb]
    simp [requestErrorDetail, jsOrString]

/-- C4 witness: a 404 whose body carries `detail = "Not found"` fails with
exactly that message. -/
theorem request_error_contract_witness :
    request { ok := false, status := 404, body := .parsed (some "Not found"), payload := "" } =
      .error "Not found" :=
  (request_error_contract
    { ok := false, status := 404, body := .parsed (some "Not found"), payload := "" } rfl).1
    "Not found" rfl (by decide)

/-- C8: `exportShoppingList` issues no network request and serializes the
in-memory list to one line per item of the form
`<name> (Score: <score to one decimal>)`, joined by newlines; on the list
`[{A, 72.3}, {B, 15.0}]` the artifact is exactly
`"A (Score: 72.3)\nB (Score: 15.0)"`. -/
theorem exportShoppingList_spec (l : List ShoppingItem) :
    (exportShoppingList l).networkRequests = [] ∧
    (exportShoppingList l).text = String.intercalate "\n"
      (l.map fun item =>
        item.name ++ " (Score: " ++ toFixed1 item.hormonal_health_score ++ ")") ∧
    (exportShoppingList
      [{ name := "A", hormonal_health_score := 72.3 },
       { name := "B", hormonal_health_score := 15.0 }]).text =
      "A (Score: 72.3)\nB (Score: 15.0)" ∧
    (exportShoppingList l).downloadFileName = "sakhi-shopping-list.txt" := by
  refine ⟨rfl, rfl, ?_, rfl⟩
  have h1 : toFixed1 (72.3 : ℚ) = "72.3" := by
    have hn : ⌊(72.3 : ℚ) * 10 + 1 / 2⌋ = 723 := by norm_num
    simp only [toFixed1, hn]
    decide
  have h2 : toFixed1 (15.0 : ℚ) = "15.0" := by
    have hn : ⌊(15.0 : ℚ) * 10 + 1 / 2⌋ = 150 := by norm_num
    simp only [toFixed1, hn]
    decide
  simp only [exportShoppingList, List.map, h1, h2]
  decide

/-- C2 counterexample: the page key `"constructor"` is not a registered
component key, yet the inherited `Object.prototype.constructor` is truthy,
so the `!this.components[page]` fallback does not fire and
`component.render()` throws a `TypeError` instead of rendering the home
page. -/
theorem loadPage_constructor_counterexample :
    componentsOwn "constructor" = none ∧
    validatePage "constructor" = "constructor" ∧
    loadPage [{ href := "#home", active := false }] "constructor" =
      .error "TypeError: component.render is not a function" := by
  exact ⟨rfl, rfl, rfl⟩

/-- C2 (amended): for every page key that does not name an inherited
`Object.prototype` property, `loadPage` renders a registered component and
does not throw — an unregistered key falls back to `'home'`, a registered
key keeps its own component, the nav link matching the final key is the
active one and the `init` hook runs; an unregistered key that names an
inherited property instead escapes the fallback and the render call throws
a `TypeError`. -/
theorem loadPage_fallback (links : List NavLink) (page : String) :
    (page ∉ objectPrototypeProps →
      ∃ res, loadPage links page = .ok res ∧
        componentsOwn res.currentPage = some res.rendered ∧
        (componentsOwn page = none → res.currentPage = "home") ∧
        (∀ c, componentsOwn page = some c →
          res.currentPage = page ∧ res.rendered = c) ∧
        res.initInvoked = true ∧
        ∀ l ∈ res.navLinks, l.active = (l.href == "#" ++ res.currentPage)) ∧
    (componentsOwn page = none → page ∈ objectPrototypeProps →
      loadPage links page =
        .error "TypeError: component.render is not a function") := by
  cases hc : componentsOwn page with
  | some c =>
      have hlk : componentsLookup page = .comp c := by
        simp [componentsLookup, hc]
      have hv : validatePage page = page := by
        simp [validatePage, hlk, PropLookup.truthy]
      have hload : loadPage links page = .ok
          { currentPage := page
            navLinks := links.map fun l => { l with active := l.href == "#" ++ page }
            rendered := c
            initInvoked := true } := by
        simp only [loadPage, hv, hlk]
      refine ⟨fun _ => ⟨_, hload, hc, fun hn => ?_, fun c' hc' => ?_, rfl, ?_⟩,
        fun hn _ => ?_⟩
      · exact Option.noConfusion hn
      · injection hc' with hcc
        exact ⟨rfl, hcc ▸ rfl⟩
      · intro l hl
        rw [List.mem_map] at hl
        obtain ⟨l0, _, rfl⟩ := hl
        rfl
      · exact Option.noConfusion hn
  | none =>
      by_cases hmem : page ∈ objectPrototypeProps
      · refine ⟨fun hnot => absurd hmem hnot, fun _ _ => ?_⟩
        have hlk : componentsLookup page = .inherited := by
          simp [componentsLookup, hc, hmem]
        have hv : validatePage page = page := by
          simp [validatePage, hlk, PropLookup.truthy]
        simp only [loadPage, hv, hlk]
      · refine ⟨fun _ => ?_, fun _ hmem' => absurd hmem' hmem⟩
        have hlk : componentsLookup page = .missing := by
          simp [componentsLookup, hc, hmem]
        have hv : validatePage page = "home" := by
          simp [validatePage, hlk, PropLookup.truthy]
        have hload : loadPage links page = .ok
            { currentPage := "home"
              navLinks := links.map fun l =>
                { l with active := l.href == "#" ++ "home" }
              rendered := .home
              initInvoked := true } := by
          simp only [loadPage, hv]
          rfl
        refine ⟨_, hload, rfl, fun _ => rfl, fun c' hc' => ?_, rfl, ?_⟩
        · exact Option.noConfusion hc'
        · intro l hl
          rw [List.mem_map] at hl
          obtain ⟨l0, _, rfl⟩ := hl
          rfl

/-- C2 witness: the unregistered, non-inherited key `"settings"` renders
the home page without throwing, and the inherited key `"constructor"`
throws. -/
theorem loadPage_fallback_witness :
    ("settings" ∉ objectPrototypeProps) ∧
    (∃ res, loadPage [{ href := "#home", active := false }] "settings" = .ok res ∧
      res.currentPage = "home") ∧
    loadPage [{ href := "#home", active := false }] "toString" =
      .error "TypeError: component.render is not a function" := by
  have hmem : "settings" ∉ objectPrototypeProps := by decide
  obtain ⟨res, hres, _, hnone, _, _, _⟩ :=
    (loadPage_fallback [{ href := "#home", active := false }] "settings").1 hmem
  refine ⟨hmem, ⟨res, hres, hnone rfl⟩, ?_⟩
  exact (loadPage_fallback [{ href := "#home", active := false }] "toString").2
    rfl (by decide)

/-- C3: `searchAlternatives` issues no `findAlternatives` request and shows
a warning toast whenever the category is empty or the score is non-numeric
or outside `[0, 100]`; for every non-empty category and numeric score in
`[0, 100]` it issues exactly one request, carrying that category and
score. -/
theorem searchAlternatives_validation (category : String) (currentScore : Option ℚ)
    (pricePreference region : String) (apiResult : Except String Nat) :
    ((category = "" ∨ currentScore = none ∨
        (∃ s, currentScore = some s ∧ (s < 0 ∨ 100 < s))) →
      (searchAlternatives category currentScore pricePreference region apiResult).requests
          = [] ∧
      ∃ m, (searchAlternatives category currentScore pricePreference region
          apiResult).toasts = [(m, "warning")]) ∧
    (∀ s, currentScore = some s → category ≠ "" → 0 ≤ s → s ≤ 100 →
      (searchAlternatives category currentScore pricePreference region apiResult).requests
        = [{ product_category := category
             current_score := s
             price_preference := if pricePreference = "" then none else some pricePreference
             region := if region = "" then none else some region
             limit := 10 }]) := by
  constructor
  · rintro (hcat | hsc | ⟨s, hsc, hrange⟩)
    · simp [searchAlternatives, hcat]
    · by_cases hcat : category = "" <;> simp [searchAlternatives, hcat, hsc]
    · by_cases hcat : category = ""
      · simp [searchAlternatives, hcat]
      · have : s < 0 ∨ 100 < s := hrange
        simp [searchAlternatives, hcat, hsc, this]
  · intro s hsc hcat h0 h100
    have hrange : ¬ (s < 0 ∨ 100 < s) := by
      push_neg
      exact ⟨h0, h100⟩
    cases apiResult <;> simp [searchAlternatives, hcat, hsc, hrange]

/-- C3 witness: scores −1 and 101 are rejected with no request, and the
valid input (category `cosmetics`, score 45) issues exactly one request. -/
theorem searchAlternatives_validation_witness :
    (searchAlternatives "cosmetics" (some (-1)) "" "" (.ok 0)).requests = [] ∧
    (searchAlternatives "cosmetics" (some 101) "" "" (.ok 0)).requests = [] ∧
    (searchAlternatives "cosmetics" none "" "" (.ok 0)).requests = [] ∧
    (searchAlternatives "cosmetics" (some 45) "" "" (.ok 3)).requests =
      [{ product_category := "cosmetics", current_score := 45, price_preference := none,
         region := none, limit := 10 }] := by
  refine ⟨?_, ?_, ?_, ?_⟩
  · exact ((searchAlternatives_validation "cosmetics" (some (-1)) "" "" (.ok 0)).1
      (Or.inr (Or.inr ⟨-1, rfl, Or.inl (by norm_num)⟩))).1
  · exact ((searchAlternatives_validation "cosmetics" (some 101) "" "" (.ok 0)).1
      (Or.inr (Or.inr ⟨101, rfl, Or.inr (by norm_num)⟩))).1
  · exact ((searchAlternatives_validation "cosmetics" none "" "" (.ok 0)).1
      (Or.inr (Or.inl rfl))).1
  · exact (searchAlternatives_validation "cosmetics" (some 45) "" "" (.ok 3)).2
      45 rfl (by decide) (by norm_num) (by norm_num)

/-- C6: any failure during `processAudio` (speech-to-text or the
respond-to-screening call) appends an error toast, ends with the loading
overlay hidden, and leaves `sessionId`, `currentScreening` and the question
panel exactly as they were, so the user can retry without restarting the
session. -/
theorem processAudio_failure_preserves_state (st : VoiceState)
    (sttResult : Except String SttResult) (respondResult : Except String RespondResponse)
    (h : (∃ e, sttResult = .error e) ∨
         (∃ stt e, sttResult = .ok stt ∧ respondResult = .error e)) :
    ∃ e,
      (processAudio st sttResult respondResult).toasts =
        st.toasts ++ [("Failed to process audio: " ++ e, "error")] ∧
      (processAudio st sttResult respondResult).loadingShown = false ∧
      (processAudio st sttResult respondResult).sessionId = st.sessionId ∧
      (processAudio st sttResult respondResult).currentScreening = st.currentScreening ∧
      (processAudio st sttResult respondResult).questionPanel = st.questionPanel ∧
      (processAudio st sttResult respondResult).interfaceShown = st.interfaceShown ∧
      (processAudio st sttResult respondResult).resultsShown = st.resultsShown := by
  rcases h with ⟨e, he⟩ | ⟨stt, e, hstt, hresp⟩
  · subst he
    exact ⟨e, rfl, rfl, rfl, rfl, rfl, rfl, rfl⟩
  · subst hstt
    subst hresp
    exact ⟨e, rfl, rfl, rfl, rfl, rfl, rfl, rfl⟩

/-- C6 witness: a failed transcription on the mid-screening state leaves the
session id and the question panel untouched and hides the loader. -/
theorem processAudio_failure_preserves_state_witness :
    ∃ e,
      (processAudio midScreeningState (.error "Request timeout")
        (.ok emptyCompleteResponse)).toasts =
        midScreeningState.toasts ++ [("Failed to process audio: " ++ e, "error")] ∧
      (processAudio midScreeningState (.error "Request timeout")
        (.ok emptyCompleteResponse)).loadingShown = false ∧
      (processAudio midScreeningState (.error "Request timeout")
        (.ok emptyCompleteResponse)).sessionId = midScreeningState.sessionId ∧
      (processAudio midScreeningState (.error "Request timeout")
        (.ok emptyCompleteResponse)).currentScreening =
        midScreeningState.currentScreening ∧
      (processAudio midScreeningState (.error "Request timeout")
        (.ok emptyCompleteResponse)).questionPanel = midScreeningState.questionPanel ∧
      (processAudio midScreeningState (.error "Request timeout")
        (.ok emptyCompleteResponse)).interfaceShown = midScreeningState.interfaceShown ∧
      (processAudio midScreeningState (.error "Request timeout")
        (.ok emptyCompleteResponse)).resultsShown = midScreeningState.resultsShown :=
  processAudio_failure_preserves_state midScreeningState _ _
    (Or.inl ⟨"Request timeout", rfl⟩)

/-- C7: a failed start-screening request appends an error toast, leaves the
component in the idle presentation (start button visible, screening
interface and results hidden), ends with the loader hidden, and retains no
session identifier. -/
theorem startScreening_failure_idle (st : VoiceState) (e : String)
    (hidle : st.sessionId = none ∧ st.startBtnShown = true ∧
             st.interfaceShown = false ∧ st.resultsShown = false) :
    (startScreening st (.error e)).sessionId = none ∧
    (startScreening st (.error e)).currentScreening = st.currentScreening ∧
    (startScreening st (.error e)).startBtnShown = true ∧
    (startScreening st (.error e)).interfaceShown = false ∧
    (startScreening st (.error e)).resultsShown = false ∧
    (startScreening st (.error e)).loadingShown = false ∧
    (startScreening st (.error e)).toasts =
      st.toasts ++ [("Failed to start screening: " ++ e, "error")] := by
  obtain ⟨h1, h2, h3, h4⟩ := hidle
  exact ⟨h1, rfl, h2, h3, h4, rfl, rfl⟩

/-- C7 witness: a network failure on the freshly rendered voice page keeps
it idle with no session id and an error toast. -/
theorem startScreening_failure_idle_witness :
    (startScreening initVoiceState (.error "Request timeout")).sessionId = none ∧
    (startScreening initVoiceState (.error "Request timeout")).currentScreening =
      initVoiceState.currentScreening ∧
    (startScreening initVoiceState (.error "Request timeout")).startBtnShown = true ∧
    (startScreening initVoiceState (.error "Request timeout")).interfaceShown = false ∧
    (startScreening initVoiceState (.error "Request timeout")).resultsShown = false ∧
    (startScreening initVoiceState (.error "Request timeout")).loadingShown = false ∧
    (startScreening initVoiceState (.error "Request timeout")).toasts =
      initVoiceState.toasts ++
        [("Failed to start screening: " ++ "Request timeout", "error")] :=
  startScreening_failure_idle initVoiceState "Request timeout" ⟨rfl, rfl, rfl, rfl⟩

/-- C9 counterexample: on a screening-start response whose first question
carries the server-side number 3, the displayed progress is the hard-coded
`Question 1 of 5` — the current index shown at the start step is the local
constant 1, not a value taken from the server's response. -/
theorem progress_start_counterexample :
    (startScreening initVoiceState (.ok startResponseAtQ3)).progressCurrent = 1 ∧
    (startScreening initVoiceState (.ok startResponseAtQ3)).progressText =
      "Question 1 of 5" ∧
    startResponseAtQ3.current_question.map Question.number = some 3 ∧
    (1 : Nat) ≠ 3 := by
  exact ⟨rfl, rfl, rfl, by decide⟩

/-- C9 (amended): on every `next_question` step the displayed progress is
exactly the server-supplied `(current_question_number, total_questions)`
pair — independent of any prior component state — and at the start step the
total is server-supplied while the current index is the constant 1. -/
theorem progress_server_supplied (st₁ st₂ : VoiceState) (stt : SttResult)
    (resp : RespondResponse) (r : StartResponse)
    (h : resp.status = "next_question") :
    (processAudio st₁ (.ok stt) (.ok resp)).progressCurrent =
      resp.current_question_number ∧
    (processAudio st₁ (.ok stt) (.ok resp)).progressTotal = resp.total_questions ∧
    (processAudio st₁ (.ok stt) (.ok resp)).progressCurrent =
      (processAudio st₂ (.ok stt) (.ok resp)).progressCurrent ∧
    (processAudio st₁ (.ok stt) (.ok resp)).progressTotal =
      (processAudio st₂ (.ok stt) (.ok resp)).progressTotal ∧
    (startScreening st₁ (.ok r)).progressCurrent = 1 ∧
    (startScreening st₁ (.ok r)).progressTotal = r.total_questions := by
  have hne : resp.status ≠ "complete" := by
    rw [h]
    decide
  refine ⟨?_, ?_, ?_, ?_, rfl, rfl⟩ <;>
    simp [processAudio, hne, h, updateProgress]

/-- C9 witness: a concrete `next_question` response with current index 4 of
5 displays 4 of 5 from two different prior states. -/
theorem progress_server_supplied_witness :
    (processAudio initVoiceState (.ok yesStt)
      (.ok nextQuestionResponse)).progressCurrent = 4 ∧
    (processAudio initVoiceState (.ok yesStt)
      (.ok nextQuestionResponse)).progressTotal = 5 :=
  ⟨(progress_server_supplied initVoiceState initVoiceState yesStt
      nextQuestionResponse plainStartResponse rfl).1,
   (progress_server_supplied initVoiceState initVoiceState yesStt
      nextQuestionResponse plainStartResponse rfl).2.1⟩

/-- Invariant maintained by serialized traces of the recording machine: at
most one `getUserMedia` acquisition pending, the active recorder (if any) is
exactly the one stored in `this.mediaRecorder`, no recorder is active while
not recording, and nothing is pending while recording. -/
def RecInv (s : VoiceRecState) : Prop :=
  s.pendingStarts ≤ 1 ∧
  (s.isRecording = true → ∃ r, s.mediaRecorder = some r ∧ s.activeRecorders = [r]) ∧
  (s.isRecording = false → s.activeRecorders = []) ∧
  (s.pendingStarts = 1 → s.isRecording = false)

theorem recInv_init : RecInv initRecState := by
  refine ⟨?_, ?_, fun _ => rfl, fun _ => rfl⟩
  · show (0 : Nat) ≤ 1
    exact Nat.zero_le 1
  · intro h
    exact absurd h (by simp [initRecState])

theorem recStep_inv {s : VoiceRecState} {e : VoiceEvent} (hs : RecInv s)
    (hser : eventOk s e = true) : RecInv (recStep s e) := by
  obtain ⟨h1, h2, h3, h4⟩ := hs
  cases e with
  | clickToggle =>
      have hp : s.pendingStarts = 0 := by
        simpa [eventOk] using hser
      by_cases hr : s.isRecording = true
      · obtain ⟨r, hmr, har⟩ := h2 hr
        have hstep : recStep s .clickToggle =
            { s with activeRecorders := s.activeRecorders.erase r, isRecording := false } := by
          simp [recStep, hr, hmr]
        rw [hstep]
        refine ⟨?_, fun h => Bool.noConfusion h, fun _ => ?_, fun _ => rfl⟩
        · show s.pendingStarts ≤ 1
          omega
        · show s.activeRecorders.erase r = []
          rw [har]
          simp
      · have hr' : s.isRecording = false := by
          simpa using hr
        have hstep : recStep s .clickToggle =
            { s with pendingStarts := s.pendingStarts + 1 } := by
          simp [recStep, hr']
        rw [hstep]
        refine ⟨?_, fun h => ?_, fun _ => ?_, fun _ => ?_⟩
        · show s.pendingStarts + 1 ≤ 1
          omega
        · exact absurd (hr'.symm.trans h) (by decide)
        · show s.activeRecorders = []
          exact h3 hr'
        · show s.isRecording = false
          exact hr'
  | grantMedia =>
      by_cases hp : s.pendingStarts = 0
      · have hstep : recStep s .grantMedia = s := by
          simp [recStep, hp]
        rw [hstep]
        exact ⟨h1, h2, h3, h4⟩
      · have hp1 : s.pendingStarts = 1 := by omega
        have hr : s.isRecording = false := h4 hp1
        have har : s.activeRecorders = [] := h3 hr
        have hstep : recStep s .grantMedia =
            { s with
                pendingStarts := s.pendingStarts - 1
                activeRecorders := s.nextId :: s.activeRecorders
                mediaRecorder := some s.nextId
                isRecording := true
                nextId := s.nextId + 1 } := by
          simp [recStep, hp]
        rw [hstep]
        refine ⟨?_, fun _ => ⟨s.nextId, rfl, ?_⟩, fun h => Bool.noConfusion h, fun hq => ?_⟩
        · show s.pendingStarts - 1 ≤ 1
          omega
        · show s.nextId :: s.activeRecorders = [s.nextId]
          rw [har]
        · have hq' : s.pendingStarts - 1 = 1 := hq
          exact absurd hq' (by omega)
  | denyMedia =>
      by_cases hp : s.pendingStarts = 0
      · have hstep : recStep s .denyMedia = s := by
          simp [recStep, hp]
        rw [hstep]
        exact ⟨h1, h2, h3, h4⟩
      · have hstep : recStep s .denyMedia =
            { s with pendingStarts := s.pendingStarts - 1 } := by
          simp [recStep, hp]
        rw [hstep]
        refine ⟨?_, fun h => h2 h, fun h => h3 h, fun hq => ?_⟩
        · show s.pendingStarts - 1 ≤ 1
          omega
        · have hq' : s.pendingStarts - 1 = 1 := hq
          exact absurd hq' (by omega)
  | clickStart => exact ⟨h1, h2, h3, h4⟩
  | startOk sid =>
      by_cases hp : s.pendingScreenings = 0
      · have hstep : recStep s (.startOk sid) = s := by
          simp [recStep, hp]
        rw [hstep]
        exact ⟨h1, h2, h3, h4⟩
      · have hstep : recStep s (.startOk sid) =
            { s with pendingScreenings := s.pendingScreenings - 1,
                     sessionId := some sid } := by
          simp [recStep, hp]
        rw [hstep]
        exact ⟨h1, fun h => h2 h, fun h => h3 h, fun h => h4 h⟩
  | startFail =>
      by_cases hp : s.pendingScreenings = 0
      · have hstep : recStep s .startFail = s := by
          simp [recStep, hp]
        rw [hstep]
        exact ⟨h1, h2, h3, h4⟩
      · have hstep : recStep s .startFail =
            { s with pendingScreenings := s.pendingScreenings - 1 } := by
          simp [recStep, hp]
        rw [hstep]
        exact ⟨h1, fun h => h2 h, fun h => h3 h, fun h => h4 h⟩

theorem recRun_inv (tr : List VoiceEvent) (s : VoiceRecState)
    (hs : RecInv s) (h : serializedFrom s tr = true) : RecInv (recRun s tr) := by
  induction tr generalizing s with
  | nil => exact hs
  | cons e es ih =>
      rw [serializedFrom, Bool.and_eq_true] at h
      exact ih (recStep s e) (recStep_inv hs h.1) h.2

theorem recInv_length_le_one {s : VoiceRecState} (hs : RecInv s) :
    s.activeRecorders.length ≤ 1 := by
  obtain ⟨_, h2, h3, _⟩ := hs
  by_cases hr : s.isRecording = true
  · obtain ⟨r, _, har⟩ := h2 hr
    simp [har]
  · have hr' : s.isRecording = false := by simpa using hr
    simp [h3 hr']

/-- C5 counterexample: two record-button clicks that both see
`isRecording == false`, followed by the resolution of both suspended
`getUserMedia` acquisitions, leave TWO `MediaRecorder`s started and never
stopped — two recording buffers accumulate at once, so the invariant fails
on an unrestricted interleaving. -/
theorem recording_buffer_counterexample :
    (recRun initRecState
      [.clickToggle, .clickToggle, .grantMedia, .grantMedia]).activeRecorders.length = 2 ∧
    serializedFrom initRecState
      [.clickToggle, .clickToggle, .grantMedia, .grantMedia] = false := by
  exact ⟨rfl, rfl⟩

/-- C5 (amended): along every serialized trace — one in which the record
button is only clicked while no `getUserMedia` acquisition is pending — at
most one recording buffer is active in every reachable state, and the page
instance retains at most one session identifier (its single `sessionId`
field). -/
theorem recording_buffer_serialized (tr : List VoiceEvent)
    (h : serializedFrom initRecState tr = true) :
    (recRun initRecState tr).activeRecorders.length ≤ 1 ∧
    ((recRun initRecState tr).sessionId = none ∨
      ∃ sid, (recRun initRecState tr).sessionId = some sid) := by
  refine ⟨recInv_length_le_one (recRun_inv tr initRecState recInv_init h), ?_⟩
  cases hs : (recRun initRecState tr).sessionId with
  | none => exact Or.inl rfl
  | some sid => exact Or.inr ⟨sid, rfl⟩

/-- C5 witness: a serialized record/stop/record trace keeps at most one
active recorder. -/
theorem recording_buffer_serialized_witness :
    serializedFrom initRecState
      [.clickToggle, .grantMedia, .clickToggle, .clickToggle, .grantMedia] = true ∧
    (recRun initRecState
      [.clickToggle, .grantMedia, .clickToggle, .clickToggle,
        .grantMedia]).activeRecorders.length ≤ 1 :=
  ⟨rfl, (recording_buffer_serialized
    [.clickToggle, .grantMedia, .clickToggle, .clickToggle, .grantMedia] rfl).1⟩

end Sakhi
